import Mathlib

/-!
Verification development for the PSD analytics page (src/app/page.tsx).

The page parses a layered-image document with an external parser, renders a
composited preview onto an off-screen canvas, and recursively flattens the
parsed layer/group tree into a flat list of display records.

We embed the data model and the three relevant pieces of code:
  * `collectLayerInfo` / the `forEach` driver (lines 105-134) as a pair of
    mutually recursive functions threading the `info.layers` array explicitly
    (a JS `push` is modelled as appending at the end of the list);
  * the `analyzePsd` pipeline (lines 73-141) as a state-transition function
    over the two React state slots plus an alert counter;
  * the leaf-record text template of the JSX renderer (lines 183-194).

The `guides` and `slices` fields hold JavaScript array references at runtime;
the flattener transfers those references verbatim (`guides: node.guides`).
To reason both about the array contents and about reference sharing with one
single embedded function, the node and record types are parametrised by the
payload types `γ` (guides) and `σ` (slices): instantiating them with actual
lists gives the value view, instantiating them with heap addresses (`Nat`)
gives the reference view used to analyse mutation/aliasing.
-/

namespace PsdAnalytics

/-- A guide: `{position: number, orientation: 'horizontal' | 'vertical'}`. -/
structure Guide where
  position : Int
  orientation : String
  deriving DecidableEq

/-- Slice bounds: `{top, left, bottom, right}`. -/
structure SliceBounds where
  top : Int
  left : Int
  bottom : Int
  right : Int
  deriving DecidableEq

/-- A slice: `{name: string, bounds: {...}}`. -/
structure Slice where
  name : String
  bounds : SliceBounds
  deriving DecidableEq

/-- The parsed tree node shape (TS interface `PsdLayerNode`, lines 40-67).
`type` is a string discriminant; at runtime it is whatever the external
parser supplies, so it is modelled as `String` rather than as an enum.
Optional TS fields become `Option`; `γ` and `σ` are the payloads carried by
the `guides` and `slices` fields. -/
inductive PsdLayerNode (γ σ : Type) : Type where
  | mk
      (type : String)
      (name : String)
      (width : Option Int)
      (height : Option Int)
      (opacity : Option Int)
      (visible : Option Bool)
      («open» : Option Bool)
      (children : Option (List (PsdLayerNode γ σ)))
      (top : Option Int)
      (left : Option Int)
      (blendMode : Option String)
      (clipped : Option Bool)
      (text : Option String)
      (guides : Option γ)
      (slices : Option σ) : PsdLayerNode γ σ

namespace PsdLayerNode

variable {γ σ : Type}

def type : PsdLayerNode γ σ → String
  | .mk t _ _ _ _ _ _ _ _ _ _ _ _ _ _ => t

def name : PsdLayerNode γ σ → String
  | .mk _ n _ _ _ _ _ _ _ _ _ _ _ _ _ => n

def width : PsdLayerNode γ σ → Option Int
  | .mk _ _ w _ _ _ _ _ _ _ _ _ _ _ _ => w

def height : PsdLayerNode γ σ → Option Int
  | .mk _ _ _ h _ _ _ _ _ _ _ _ _ _ _ => h

def opacity : PsdLayerNode γ σ → Option Int
  | .mk _ _ _ _ o _ _ _ _ _ _ _ _ _ _ => o

def visible : PsdLayerNode γ σ → Option Bool
  | .mk _ _ _ _ _ v _ _ _ _ _ _ _ _ _ => v

def «open» : PsdLayerNode γ σ → Option Bool
  | .mk _ _ _ _ _ _ op _ _ _ _ _ _ _ _ => op

def children : PsdLayerNode γ σ → Option (List (PsdLayerNode γ σ))
  | .mk _ _ _ _ _ _ _ c _ _ _ _ _ _ _ => c

def top : PsdLayerNode γ σ → Option Int
  | .mk _ _ _ _ _ _ _ _ t _ _ _ _ _ _ => t

def left : PsdLayerNode γ σ → Option Int
  | .mk _ _ _ _ _ _ _ _ _ l _ _ _ _ _ => l

def blendMode : PsdLayerNode γ σ → Option String
  | .mk _ _ _ _ _ _ _ _ _ _ b _ _ _ _ => b

def clipped : PsdLayerNode γ σ → Option Bool
  | .mk _ _ _ _ _ _ _ _ _ _ _ c _ _ _ => c

def text : PsdLayerNode γ σ → Option String
  | .mk _ _ _ _ _ _ _ _ _ _ _ _ t _ _ => t

def guides : PsdLayerNode γ σ → Option γ
  | .mk _ _ _ _ _ _ _ _ _ _ _ _ _ g _ => g

def slices : PsdLayerNode γ σ → Option σ
  | .mk _ _ _ _ _ _ _ _ _ _ _ _ _ _ s => s

end PsdLayerNode

/-- One element of `info.layers` (TS type `PsdFileInfo['layers'][number]`,
lines 11-37).  Every field except `name` and `type` is optional in TS; a
property that a record literal does not mention is `none`. -/
structure LayerRecord (γ σ : Type) where
  name : String
  width : Option Int
  height : Option Int
  opacity : Option Int
  visible : Option Bool
  type : String
  «open» : Option Bool
  top : Option Int
  left : Option Int
  blendMode : Option String
  clipped : Option Bool
  text : Option String
  guides : Option γ
  slices : Option σ
  deriving DecidableEq

/-- The record pushed for a `'Layer'` node (lines 107-121): every listed
field is copied from the node; `open` is not mentioned in the literal. -/
def leafRecordOf {γ σ : Type} (n : PsdLayerNode γ σ) : LayerRecord γ σ :=
  { name := n.name
    width := n.width
    height := n.height
    opacity := n.opacity
    visible := n.visible
    type := n.type
    «open» := none
    top := n.top
    left := n.left
    blendMode := n.blendMode
    clipped := n.clipped
    text := n.text
    guides := n.guides
    slices := n.slices }

/-- The record pushed for a `'Group'` node (lines 123-129): only `name`,
`type`, `open`, `guides`, `slices` are mentioned in the literal. -/
def groupRecordOf {γ σ : Type} (n : PsdLayerNode γ σ) : LayerRecord γ σ :=
  { name := n.name
    width := none
    height := none
    opacity := none
    visible := none
    type := n.type
    «open» := n.«open»
    top := none
    left := none
    blendMode := none
    clipped := none
    text := none
    guides := n.guides
    slices := n.slices }

mutual

/-- `collectLayerInfo` (lines 105-132).  The mutable `info.layers` array is
threaded as the `layers` argument; `push` appends at the end.  A `'Layer'`
node pushes one full record, a `'Group'` node pushes one reduced record and
then visits `node.children?.forEach(...)`, and any other discriminant falls
through both `if` branches and does nothing. -/
def collectLayerInfo {γ σ : Type} (layers : List (LayerRecord γ σ)) (node : PsdLayerNode γ σ) :
    List (LayerRecord γ σ) :=
  match node with
  | .mk ty nm w h o v op ch tp lf bm cl tx g s =>
    if ty = "Layer" then
      layers ++ [{ name := nm, width := w, height := h, opacity := o, visible := v,
                   type := ty, «open» := none, top := tp, left := lf, blendMode := bm,
                   clipped := cl, text := tx, guides := g, slices := s }]
    else if ty = "Group" then
      let layers1 := layers ++ [{ name := nm, width := none, height := none, opacity := none,
                                  visible := none, type := ty, «open» := op, top := none,
                                  left := none, blendMode := none, clipped := none,
                                  text := none, guides := g, slices := s }]
      match ch with
      | some cs => collectLayerInfoList layers1 cs
      | none => layers1
    else
      layers

/-- `nodes.forEach(collectLayerInfo)` / `children?.forEach(...)`: visit the
nodes left to right, each one extending the shared `layers` accumulator. -/
def collectLayerInfoList {γ σ : Type} (layers : List (LayerRecord γ σ))
    (nodes : List (PsdLayerNode γ σ)) : List (LayerRecord γ σ) :=
  match nodes with
  | [] => layers
  | c :: cs => collectLayerInfoList (collectLayerInfo layers c) cs

end

/-- `psdFile.children.forEach(collectLayerInfo)` (line 134) starting from the
empty `info.layers` array (line 101). -/
def flattenLayers {γ σ : Type} (children : List (PsdLayerNode γ σ)) : List (LayerRecord γ σ) :=
  collectLayerInfoList [] children

/-- Pushing into a pre-populated `info.layers` only appends: the records a
node contributes do not depend on what was already in the array.  Proved
together with its list version by the functional induction principle of the
flattener. -/
theorem collect_append_both {γ σ : Type} :
    (∀ (_layers : List (LayerRecord γ σ)) (n : PsdLayerNode γ σ) (L : List (LayerRecord γ σ)),
        collectLayerInfo L n = L ++ collectLayerInfo [] n) ∧
    (∀ (_layers : List (LayerRecord γ σ)) (ns : List (PsdLayerNode γ σ))
        (L : List (LayerRecord γ σ)),
        collectLayerInfoList L ns = L ++ collectLayerInfoList [] ns) := by
  refine collectLayerInfo.mutual_induct
    (fun _ n => ∀ L, collectLayerInfo L n = L ++ collectLayerInfo [] n)
    (fun _ ns => ∀ L, collectLayerInfoList L ns = L ++ collectLayerInfoList [] ns)
    ?_ ?_ ?_ ?_ ?_ ?_
  · intro layers nm w h o v op ch tp lf bm cl tx g s L
    rw [collectLayerInfo.eq_def, collectLayerInfo.eq_def]
    simp
  · intro layers nm w h o v op tp lf bm cl tx g s cs _ layers1 ih L
    rw [collectLayerInfo.eq_def]
    conv_rhs => rw [collectLayerInfo.eq_def]
    simp only [String.reduceEq, if_false, if_true, reduceCtorEq, List.nil_append]
    conv_lhs => rw [ih]
    conv_rhs => rw [ih]
    simp
  · intro layers nm w h o v op tp lf bm cl tx g s _ L
    rw [collectLayerInfo.eq_def, collectLayerInfo.eq_def]
    simp
  · intro layers t nm w h o v op ch tp lf bm cl tx g s h1 h2 L
    rw [collectLayerInfo.eq_def, collectLayerInfo.eq_def]
    simp [h1, h2]
  · intro layers L
    rw [collectLayerInfoList.eq_def]
    conv_rhs => rw [collectLayerInfoList.eq_def]
    simp
  · intro layers c cs ih1 ih2 L
    rw [collectLayerInfoList.eq_def]
    conv_rhs => rw [collectLayerInfoList.eq_def]
    simp only []
    rw [ih2 (collectLayerInfo L c), ih2 (collectLayerInfo [] c), ih1 L]
    simp

/-- `collectLayerInfo` on a pre-populated accumulator appends the records the
node contributes on an empty accumulator. -/
theorem collectLayerInfo_append {γ σ : Type} (L : List (LayerRecord γ σ))
    (n : PsdLayerNode γ σ) :
    collectLayerInfo L n = L ++ collectLayerInfo [] n :=
  collect_append_both.1 [] n L

/-- List version of `collectLayerInfo_append`. -/
theorem collectLayerInfoList_append {γ σ : Type} (L : List (LayerRecord γ σ))
    (ns : List (PsdLayerNode γ σ)) :
    collectLayerInfoList L ns = L ++ collectLayerInfoList [] ns :=
  collect_append_both.2 [] ns L

/-- A `'Layer'` node pushes exactly its full copied record. -/
theorem collectLayerInfo_layer {γ σ : Type} (layers : List (LayerRecord γ σ))
    (n : PsdLayerNode γ σ) (h : n.type = "Layer") :
    collectLayerInfo layers n = layers ++ [leafRecordOf n] := by
  cases n with
  | mk ty nm w h' o v op ch tp lf bm cl tx g s =>
    simp only [PsdLayerNode.type] at h
    subst h
    rfl

/-- A `'Group'` node pushes its reduced record and then walks its children
(no children meaning an empty walk). -/
theorem collectLayerInfo_group {γ σ : Type} (layers : List (LayerRecord γ σ))
    (n : PsdLayerNode γ σ) (h : n.type = "Group") :
    collectLayerInfo layers n =
      collectLayerInfoList (layers ++ [groupRecordOf n]) (n.children.getD []) := by
  cases n with
  | mk ty nm w h' o v op ch tp lf bm cl tx g s =>
    simp only [PsdLayerNode.type] at h
    subst h
    cases ch with
    | none => rfl
    | some cs => rfl

/-- A node with any other discriminant pushes nothing and is not recursed
into. -/
theorem collectLayerInfo_other {γ σ : Type} (layers : List (LayerRecord γ σ))
    (n : PsdLayerNode γ σ) (h1 : n.type ≠ "Layer") (h2 : n.type ≠ "Group") :
    collectLayerInfo layers n = layers := by
  obtain ⟨ty, nm, w, h', o, v, op, ch, tp, lf, bm, cl, tx, g, s⟩ := n
  simp only [PsdLayerNode.type] at h1 h2
  rw [collectLayerInfo.eq_def]
  simp [h1, h2]

/-- Unfolding the node walk over a `cons`. -/
theorem collectLayerInfoList_cons {γ σ : Type} (layers : List (LayerRecord γ σ))
    (c : PsdLayerNode γ σ) (cs : List (PsdLayerNode γ σ)) :
    collectLayerInfoList layers (c :: cs) = collectLayerInfoList (collectLayerInfo layers c) cs :=
  rfl

mutual

/-- Modelled from the spec (section 3 invariant and section 4.3): the
pre-order display sequence of one node is its own record first, followed by
the flattened records of its children in order, all in one flat list. -/
def specDisplayNode {γ σ : Type} : PsdLayerNode γ σ → List (LayerRecord γ σ)
  | .mk ty nm w h o v op ch tp lf bm cl tx g s =>
    (if ty = "Layer" then leafRecordOf (.mk ty nm w h o v op ch tp lf bm cl tx g s)
     else groupRecordOf (.mk ty nm w h o v op ch tp lf bm cl tx g s)) ::
      (match ch with
       | some cs => specDisplayForest cs
       | none => [])

/-- Modelled from the spec: the display sequence of a list of sibling nodes
concatenates each node's display sequence in sibling order. -/
def specDisplayForest {γ σ : Type} : List (PsdLayerNode γ σ) → List (LayerRecord γ σ)
  | [] => []
  | n :: rest => specDisplayNode n ++ specDisplayForest rest

end

mutual

/-- Number of nodes in a tree (the node itself plus all descendants). -/
def countNodes {γ σ : Type} : PsdLayerNode γ σ → Nat
  | .mk _ _ _ _ _ _ _ ch _ _ _ _ _ _ _ =>
    1 + (match ch with
         | some cs => countForest cs
         | none => 0)

/-- Number of nodes in a forest. -/
def countForest {γ σ : Type} : List (PsdLayerNode γ σ) → Nat
  | [] => 0
  | n :: rest => countNodes n + countForest rest

end

mutual

/-- Source trees as the external parser delivers them (spec sections 3, 4.3
and 6): every discriminant is `'Layer'` or `'Group'`, and a leaf `'Layer'`
node has no children. -/
def isSourceNode {γ σ : Type} : PsdLayerNode γ σ → Bool
  | .mk ty _ _ _ _ _ _ ch _ _ _ _ _ _ _ =>
    if ty = "Layer" then
      (match ch with
       | some cs => cs.isEmpty
       | none => true)
    else if ty = "Group" then
      (match ch with
       | some cs => isSourceForest cs
       | none => true)
    else false

/-- A forest of source nodes. -/
def isSourceForest {γ σ : Type} : List (PsdLayerNode γ σ) → Bool
  | [] => true
  | n :: rest => isSourceNode n && isSourceForest rest

end

theorem specDisplayNode_mk {γ σ : Type} (ty nm : String) (w h o : Option Int)
    (v op : Option Bool) (ch : Option (List (PsdLayerNode γ σ))) (tp lf : Option Int)
    (bm : Option String) (cl : Option Bool) (tx : Option String) (g : Option γ) (s : Option σ) :
    specDisplayNode (PsdLayerNode.mk ty nm w h o v op ch tp lf bm cl tx g s) =
      (if ty = "Layer" then leafRecordOf (PsdLayerNode.mk ty nm w h o v op ch tp lf bm cl tx g s)
       else groupRecordOf (PsdLayerNode.mk ty nm w h o v op ch tp lf bm cl tx g s)) ::
        (match ch with
         | some cs => specDisplayForest cs
         | none => []) := by
  rw [specDisplayNode.eq_def]

theorem specDisplayForest_nil {γ σ : Type} :
    specDisplayForest ([] : List (PsdLayerNode γ σ)) = [] := by
  rw [specDisplayForest.eq_def]

theorem specDisplayForest_cons {γ σ : Type} (n : PsdLayerNode γ σ)
    (rest : List (PsdLayerNode γ σ)) :
    specDisplayForest (n :: rest) = specDisplayNode n ++ specDisplayForest rest := by
  rw [specDisplayForest.eq_def]

theorem countNodes_mk {γ σ : Type} (ty nm : String) (w h o : Option Int)
    (v op : Option Bool) (ch : Option (List (PsdLayerNode γ σ))) (tp lf : Option Int)
    (bm : Option String) (cl : Option Bool) (tx : Option String) (g : Option γ) (s : Option σ) :
    countNodes (PsdLayerNode.mk ty nm w h o v op ch tp lf bm cl tx g s) =
      1 + (match ch with
           | some cs => countForest cs
           | none => 0) := by
  rw [countNodes.eq_def]

theorem countForest_nil {γ σ : Type} : countForest ([] : List (PsdLayerNode γ σ)) = 0 := by
  rw [countForest.eq_def]

theorem countForest_cons {γ σ : Type} (n : PsdLayerNode γ σ) (rest : List (PsdLayerNode γ σ)) :
    countForest (n :: rest) = countNodes n + countForest rest := by
  rw [countForest.eq_def]

theorem isSourceNode_mk {γ σ : Type} (ty nm : String) (w h o : Option Int)
    (v op : Option Bool) (ch : Option (List (PsdLayerNode γ σ))) (tp lf : Option Int)
    (bm : Option String) (cl : Option Bool) (tx : Option String) (g : Option γ) (s : Option σ) :
    isSourceNode (PsdLayerNode.mk ty nm w h o v op ch tp lf bm cl tx g s) =
      (if ty = "Layer" then
        (match ch with
         | some cs => cs.isEmpty
         | none => true)
       else if ty = "Group" then
        (match ch with
         | some cs => isSourceForest cs
         | none => true)
       else false) := by
  rw [isSourceNode.eq_def]

theorem isSourceForest_nil {γ σ : Type} :
    isSourceForest ([] : List (PsdLayerNode γ σ)) = true := by
  rw [isSourceForest.eq_def]

theorem isSourceForest_cons {γ σ : Type} (n : PsdLayerNode γ σ)
    (rest : List (PsdLayerNode γ σ)) :
    isSourceForest (n :: rest) = (isSourceNode n && isSourceForest rest) := by
  rw [isSourceForest.eq_def]

/-- On source trees the flattener emits exactly the spec's pre-order display
sequence, and its length is the number of nodes.  Proved together with the
forest version by functional induction on the flattener. -/
theorem collect_spec_both {γ σ : Type} :
    (∀ (_layers : List (LayerRecord γ σ)) (n : PsdLayerNode γ σ),
        isSourceNode n = true →
          collectLayerInfo [] n = specDisplayNode n ∧
          (specDisplayNode n).length = countNodes n) ∧
    (∀ (_layers : List (LayerRecord γ σ)) (ns : List (PsdLayerNode γ σ)),
        isSourceForest ns = true →
          collectLayerInfoList [] ns = specDisplayForest ns ∧
          (specDisplayForest ns).length = countForest ns) := by
  refine collectLayerInfo.mutual_induct
    (fun _ n => isSourceNode n = true →
      collectLayerInfo [] n = specDisplayNode n ∧ (specDisplayNode n).length = countNodes n)
    (fun _ ns => isSourceForest ns = true →
      collectLayerInfoList [] ns = specDisplayForest ns ∧
        (specDisplayForest ns).length = countForest ns)
    ?_ ?_ ?_ ?_ ?_ ?_
  · intro layers nm w h o v op ch tp lf bm cl tx g s hsrc
    rw [isSourceNode_mk] at hsrc
    simp only [String.reduceEq, if_true] at hsrc
    rw [collectLayerInfo_layer []
      (PsdLayerNode.mk "Layer" nm w h o v op ch tp lf bm cl tx g s) rfl,
      specDisplayNode_mk, countNodes_mk]
    cases ch with
    | none => simp
    | some cs =>
      cases cs with
      | nil => simp [specDisplayForest_nil, countForest_nil]
      | cons c cs' => simp [List.isEmpty] at hsrc
  · intro layers nm w h o v op tp lf bm cl tx g s cs _ layers1 ih hsrc
    rw [isSourceNode_mk] at hsrc
    simp only [String.reduceEq, if_true, if_false] at hsrc
    obtain ⟨e1, e2⟩ := ih hsrc
    rw [collectLayerInfo_group []
      (PsdLayerNode.mk "Group" nm w h o v op (some cs) tp lf bm cl tx g s) rfl,
      specDisplayNode_mk, countNodes_mk]
    simp only [String.reduceEq, if_true, if_false, List.nil_append, PsdLayerNode.children,
      Option.getD_some]
    rw [collectLayerInfoList_append, e1]
    refine ⟨rfl, ?_⟩
    simp only [List.length_cons, e2]
    omega
  · intro layers nm w h o v op tp lf bm cl tx g s _ hsrc
    rw [collectLayerInfo_group []
      (PsdLayerNode.mk "Group" nm w h o v op none tp lf bm cl tx g s) rfl,
      specDisplayNode_mk, countNodes_mk]
    simp [PsdLayerNode.children, collectLayerInfoList]
  · intro layers t nm w h o v op ch tp lf bm cl tx g s h1 h2 hsrc
    rw [isSourceNode_mk] at hsrc
    simp [h1, h2] at hsrc
  · intro layers _
    rw [collectLayerInfoList.eq_def]
    simp [specDisplayForest_nil, countForest_nil]
  · intro layers c cs ih1 ih2 hsrc
    rw [isSourceForest_cons] at hsrc
    simp only [Bool.and_eq_true] at hsrc
    obtain ⟨d1, d2⟩ := ih1 hsrc.1
    obtain ⟨e1, e2⟩ := ih2 hsrc.2
    rw [collectLayerInfoList_cons, specDisplayForest_cons, countForest_cons]
    refine ⟨?_, by simp [d2, e2]⟩
    rw [collectLayerInfoList_append, d1, e1]

/-- The value view: `guides` and `slices` hold the actual lists, as in the TS
type declarations. -/
abbrev SrcNode := PsdLayerNode (List Guide) (List Slice)

/-- Example leaf layer node. -/
def sampleLeaf1 : SrcNode :=
  .mk "Layer" "leaf1" (some 10) (some 20) (some 100) (some true) none none
    (some 3) (some 4) (some "normal") (some false) none none none

/-- Example leaf layer node with text, guides and slices. -/
def sampleLeaf2 : SrcNode :=
  .mk "Layer" "leaf2" (some 7) (some 8) (some 55) (some false) none none
    (some 1) (some 2) (some "multiply") (some true) (some "hello")
    (some [⟨5, "horizontal"⟩, ⟨9, "vertical"⟩])
    (some [⟨"slice1", ⟨0, 0, 10, 10⟩⟩])

/-- Example group with two leaf children. -/
def sampleGroup : SrcNode :=
  .mk "Group" "group1" none none none none (some true) (some [sampleLeaf1, sampleLeaf2])
    none none none none none none none

/-- C1: for every source tree whose nodes all carry discriminant 'Layer' or
'Group', the flattener emits exactly one display record per node, in
pre-order depth-first order (a parent's record before all of its
descendants', descendants before later siblings), into one flat list; a root
with one Group holding two Leaf children yields exactly 3 records in order
[Group, Leaf, Leaf], and a root with zero children yields the empty list. -/
theorem claim_C1 (roots : List SrcNode) (h : isSourceForest roots = true) :
    flattenLayers roots = specDisplayForest roots ∧
    (flattenLayers roots).length = countForest roots ∧
    flattenLayers ([] : List SrcNode) = [] ∧
    (flattenLayers [sampleGroup]).map LayerRecord.type = ["Group", "Layer", "Layer"] ∧
    (flattenLayers [sampleGroup]).length = 3 := by
  obtain ⟨e1, e2⟩ := collect_spec_both.2 ([] : List (LayerRecord (List Guide) (List Slice))) roots h
  refine ⟨e1, ?_, by decide, by decide, by decide⟩
  rw [flattenLayers, e1, e2]

/-- Witness for C1 at the concrete one-group-two-leaves root. -/
theorem claim_C1_witness :
    isSourceForest [sampleGroup] = true ∧
    (flattenLayers [sampleGroup] = specDisplayForest [sampleGroup] ∧
     (flattenLayers [sampleGroup]).length = countForest [sampleGroup] ∧
     flattenLayers ([] : List SrcNode) = [] ∧
     (flattenLayers [sampleGroup]).map LayerRecord.type = ["Group", "Layer", "Layer"] ∧
     (flattenLayers [sampleGroup]).length = 3) :=
  ⟨by decide, claim_C1 [sampleGroup] (by decide)⟩

/-- C4: a node whose discriminant is neither 'Layer' nor 'Group' emits no
display record and traversal continues over the remaining nodes; the
flattener is a total function, so it never throws. -/
theorem claim_C4 (layers : List (LayerRecord (List Guide) (List Slice))) (n : SrcNode)
    (rest : List SrcNode) (h1 : n.type ≠ "Layer") (h2 : n.type ≠ "Group") :
    collectLayerInfo layers n = layers ∧
    collectLayerInfoList layers (n :: rest) = collectLayerInfoList layers rest := by
  have e := collectLayerInfo_other layers n h1 h2
  exact ⟨e, by rw [collectLayerInfoList_cons, e]⟩

/-- Sample node with the parser's root discriminant, which is neither
'Layer' nor 'Group', holding recognizable children. -/
def samplePsdRoot : SrcNode :=
  .mk "Psd" "root" (some 100) (some 50) none none none (some [sampleLeaf1, sampleGroup])
    none none none none none none none

/-- Witness for C4 at a concrete 'Psd'-discriminant node. -/
theorem claim_C4_witness :
    (samplePsdRoot.type ≠ "Layer" ∧ samplePsdRoot.type ≠ "Group") ∧
    (collectLayerInfo [] samplePsdRoot = [] ∧
     collectLayerInfoList [] [samplePsdRoot, sampleLeaf1] =
       collectLayerInfoList [] [sampleLeaf1]) :=
  ⟨⟨by decide, by decide⟩, claim_C4 [] samplePsdRoot [sampleLeaf1] (by decide) (by decide)⟩

/-- C5: a 'Layer' node's emitted record copies width, height, top, left and
opacity from the source node exactly, with no transformation. -/
theorem claim_C5 (layers : List (LayerRecord (List Guide) (List Slice))) (n : SrcNode)
    (h : n.type = "Layer") :
    collectLayerInfo layers n = layers ++ [leafRecordOf n] ∧
    (leafRecordOf n).width = n.width ∧
    (leafRecordOf n).height = n.height ∧
    (leafRecordOf n).top = n.top ∧
    (leafRecordOf n).left = n.left ∧
    (leafRecordOf n).opacity = n.opacity :=
  ⟨collectLayerInfo_layer layers n h, rfl, rfl, rfl, rfl, rfl⟩

/-- Witness for C5 at a concrete leaf node. -/
theorem claim_C5_witness :
    sampleLeaf2.type = "Layer" ∧
    (collectLayerInfo [] sampleLeaf2 = [] ++ [leafRecordOf sampleLeaf2] ∧
     (leafRecordOf sampleLeaf2).width = sampleLeaf2.width ∧
     (leafRecordOf sampleLeaf2).height = sampleLeaf2.height ∧
     (leafRecordOf sampleLeaf2).top = sampleLeaf2.top ∧
     (leafRecordOf sampleLeaf2).left = sampleLeaf2.left ∧
     (leafRecordOf sampleLeaf2).opacity = sampleLeaf2.opacity) :=
  ⟨by decide, claim_C5 [] sampleLeaf2 (by decide)⟩

/-- C6: a 'Group' node's record carries only name, open flag and the
optional guides and slices (all geometry, text, blend-mode, clipping and
visibility fields stay unset), and the group's children are walked in the
node's own order, their records landing right after the group's record and
before any later sibling's records. -/
theorem claim_C6 (layers : List (LayerRecord (List Guide) (List Slice))) (n : SrcNode)
    (sibs : List SrcNode) (h : n.type = "Group") :
    collectLayerInfo layers n =
      (layers ++ [groupRecordOf n]) ++ collectLayerInfoList [] (n.children.getD []) ∧
    collectLayerInfoList layers (n :: sibs) =
      ((layers ++ [groupRecordOf n]) ++ collectLayerInfoList [] (n.children.getD [])) ++
        collectLayerInfoList [] sibs ∧
    (groupRecordOf n).name = n.name ∧
    (groupRecordOf n).type = n.type ∧
    (groupRecordOf n).«open» = n.«open» ∧
    (groupRecordOf n).guides = n.guides ∧
    (groupRecordOf n).slices = n.slices ∧
    (groupRecordOf n).width = none ∧
    (groupRecordOf n).height = none ∧
    (groupRecordOf n).opacity = none ∧
    (groupRecordOf n).visible = none ∧
    (groupRecordOf n).top = none ∧
    (groupRecordOf n).left = none ∧
    (groupRecordOf n).blendMode = none ∧
    (groupRecordOf n).clipped = none ∧
    (groupRecordOf n).text = none := by
  have e := collectLayerInfo_group layers n h
  have e2 := collectLayerInfoList_append (layers ++ [groupRecordOf n]) (n.children.getD [])
  refine ⟨by rw [e, e2], ?_, rfl, rfl, rfl, rfl, rfl, rfl, rfl, rfl, rfl, rfl, rfl, rfl,
    rfl, rfl⟩
  rw [collectLayerInfoList_cons, e, e2,
    collectLayerInfoList_append ((layers ++ [groupRecordOf n]) ++ _) sibs]

/-- Witness for C6 at the concrete group node with a sibling. -/
theorem claim_C6_witness :
    sampleGroup.type = "Group" ∧
    (collectLayerInfo [] sampleGroup =
      ([] ++ [groupRecordOf sampleGroup]) ++
        collectLayerInfoList [] (sampleGroup.children.getD []) ∧
     collectLayerInfoList [] [sampleGroup, sampleLeaf1] =
      (([] ++ [groupRecordOf sampleGroup]) ++
        collectLayerInfoList [] (sampleGroup.children.getD [])) ++
        collectLayerInfoList [] [sampleLeaf1] ∧
     (groupRecordOf sampleGroup).name = sampleGroup.name ∧
     (groupRecordOf sampleGroup).type = sampleGroup.type ∧
     (groupRecordOf sampleGroup).«open» = sampleGroup.«open» ∧
     (groupRecordOf sampleGroup).guides = sampleGroup.guides ∧
     (groupRecordOf sampleGroup).slices = sampleGroup.slices ∧
     (groupRecordOf sampleGroup).width = none ∧
     (groupRecordOf sampleGroup).height = none ∧
     (groupRecordOf sampleGroup).opacity = none ∧
     (groupRecordOf sampleGroup).visible = none ∧
     (groupRecordOf sampleGroup).top = none ∧
     (groupRecordOf sampleGroup).left = none ∧
     (groupRecordOf sampleGroup).blendMode = none ∧
     (groupRecordOf sampleGroup).clipped = none ∧
     (groupRecordOf sampleGroup).text = none) :=
  ⟨by decide, claim_C6 [] sampleGroup [sampleLeaf1] (by decide)⟩

/-- C10: a node with an unrecognized discriminant is skipped together with
its whole subtree: the flattener does not recurse into its children, so even
'Layer' or 'Group' descendants below it produce no record; the concrete
'Psd'-discriminant node holding a recognizable leaf and group produces an
empty output. -/
theorem claim_C10 (layers : List (LayerRecord (List Guide) (List Slice))) (n : SrcNode)
    (h1 : n.type ≠ "Layer") (h2 : n.type ≠ "Group") :
    collectLayerInfo layers n = layers ∧
    isSourceForest (samplePsdRoot.children.getD []) = true ∧
    flattenLayers [samplePsdRoot] = [] :=
  ⟨collectLayerInfo_other layers n h1 h2, by decide, by decide⟩

/-- Witness for C10 at the concrete 'Psd' node with recognizable children. -/
theorem claim_C10_witness :
    (samplePsdRoot.type ≠ "Layer" ∧ samplePsdRoot.type ≠ "Group") ∧
    (collectLayerInfo [] samplePsdRoot = [] ∧
     isSourceForest (samplePsdRoot.children.getD []) = true ∧
     flattenLayers [samplePsdRoot] = []) :=
  ⟨⟨by decide, by decide⟩, claim_C10 [] samplePsdRoot (by decide) (by decide)⟩

/-- JSX interpolation of a possibly-undefined number (lines 185-187):
`undefined` renders as nothing, a number as its decimal text. -/
def showOptInt : Option Int → String
  | none => ""
  | some n => toString n

/-- JSX interpolation of a possibly-undefined string (line 189). -/
def showOptStr : Option String → String
  | none => ""
  | some str => str

/-- Line 191, `{layer.text && ", テキスト: " + layer.text}` (template
literal): `undefined` and the empty string are falsy, so nothing is
rendered; a non-empty string renders the suffix. -/
def textSuffix : Option String → String
  | none => ""
  | some t => if t = "" then "" else ", テキスト: " ++ t

/-- Line 192, `{layer.guides && layer.guides.length > 0 && ...}`: the suffix
renders only when the guides array exists and is non-empty, showing its
length. -/
def guideSuffix : Option (List Guide) → String
  | none => ""
  | some gs => if gs.length > 0 then ", ガイド数: " ++ toString gs.length else ""

/-- Line 193, `{layer.slices && layer.slices.length > 0 && ...}`. -/
def sliceSuffix : Option (List Slice) → String
  | none => ""
  | some ss => if ss.length > 0 then ", スライス数: " ++ toString ss.length else ""

/-- The unconditional head of the leaf span (lines 184-190): dimensions,
position, opacity, visibility, blend mode, clipping. -/
def leafMain (r : LayerRecord (List Guide) (List Slice)) : String :=
  " (" ++ showOptInt r.width ++ "x" ++ showOptInt r.height ++
    ", 位置: X:" ++ showOptInt r.left ++ "px Y:" ++ showOptInt r.top ++
    "px, 不透明度: " ++ showOptInt r.opacity ++ "%, 表示: " ++
    (if r.visible = some true then "表示" else "非表示") ++
    ", ブレンドモード: " ++ showOptStr r.blendMode ++
    ", クリッピング: " ++ (if r.clipped = some true then "あり" else "なし")

/-- The rendered text of a leaf record's detail span (lines 183-194): the
unconditional head, then the three conditional suffixes, then the closing
parenthesis. -/
def leafDetails (r : LayerRecord (List Guide) (List Slice)) : String :=
  leafMain r ++ textSuffix r.text ++ guideSuffix r.guides ++ sliceSuffix r.slices ++ ")"

/-- The rendered line for one record (lines 180-196): marker, name, and the
detail span only for 'Layer' records. -/
def renderRecordLine (r : LayerRecord (List Guide) (List Slice)) : String :=
  (if r.type = "Group" then "📁" else "🖼️") ++ " " ++ r.name ++
    (if r.type = "Layer" then leafDetails r else "")

/-- C7: in the rendered text of a Leaf record the text suffix appears only
for present non-empty text, the guide-count suffix only for a present
non-empty guides list (showing its length), the slice-count suffix only for
a present non-empty slices list; an absent or empty source field renders no
suffix at all (the empty string, never an empty or zero-valued suffix); two
guides render the count "2". -/
theorem claim_C7 (r : LayerRecord (List Guide) (List Slice)) :
    leafDetails r =
      leafMain r ++ textSuffix r.text ++ guideSuffix r.guides ++ sliceSuffix r.slices ++ ")" ∧
    (∀ t, r.text = some t → t ≠ "" → textSuffix r.text = ", テキスト: " ++ t) ∧
    (r.text = none → textSuffix r.text = "") ∧
    (r.text = some "" → textSuffix r.text = "") ∧
    (∀ gs, r.guides = some gs → 1 ≤ gs.length →
      guideSuffix r.guides = ", ガイド数: " ++ toString gs.length) ∧
    (r.guides = none → guideSuffix r.guides = "") ∧
    (r.guides = some [] → guideSuffix r.guides = "") ∧
    (∀ ss, r.slices = some ss → 1 ≤ ss.length →
      sliceSuffix r.slices = ", スライス数: " ++ toString ss.length) ∧
    (r.slices = none → sliceSuffix r.slices = "") ∧
    (r.slices = some [] → sliceSuffix r.slices = "") ∧
    guideSuffix (some [⟨5, "horizontal"⟩, ⟨9, "vertical"⟩]) = ", ガイド数: 2" ∧
    guideSuffix (none : Option (List Guide)) = "" := by
  refine ⟨rfl, ?_, ?_, ?_, ?_, ?_, ?_, ?_, ?_, ?_, by decide, rfl⟩
  · intro t ht hne
    rw [ht]
    simp [textSuffix, hne]
  · intro ht
    rw [ht]
    rfl
  · intro ht
    rw [ht]
    simp [textSuffix]
  · intro gs hg hlen
    rw [hg]
    have : 0 < gs.length := hlen
    simp [guideSuffix, this]
  · intro hg
    rw [hg]
    rfl
  · intro hg
    rw [hg]
    simp [guideSuffix]
  · intro ss hs hlen
    rw [hs]
    have : 0 < ss.length := hlen
    simp [sliceSuffix, this]
  · intro hs
    rw [hs]
    rfl
  · intro hs
    rw [hs]
    simp [sliceSuffix]

/-- Witness for C7 at the concrete leaf record with text, two guides and one
slice. -/
theorem claim_C7_witness :
    (leafRecordOf sampleLeaf2).text = some "hello" ∧
    (leafRecordOf sampleLeaf2).guides = some [⟨5, "horizontal"⟩, ⟨9, "vertical"⟩] ∧
    textSuffix (leafRecordOf sampleLeaf2).text = ", テキスト: hello" ∧
    guideSuffix (leafRecordOf sampleLeaf2).guides = ", ガイド数: 2" ∧
    sliceSuffix (leafRecordOf sampleLeaf2).slices = ", スライス数: 1" ∧
    textSuffix (leafRecordOf sampleLeaf1).text = "" ∧
    guideSuffix (leafRecordOf sampleLeaf1).guides = "" :=
  ⟨rfl, rfl,
    (claim_C7 (leafRecordOf sampleLeaf2)).2.1 "hello" rfl (by decide),
    (claim_C7 (leafRecordOf sampleLeaf2)).2.2.2.2.1 [⟨5, "horizontal"⟩, ⟨9, "vertical"⟩]
      rfl (by decide),
    (claim_C7 (leafRecordOf sampleLeaf2)).2.2.2.2.2.2.2.1 [⟨"slice1", ⟨0, 0, 10, 10⟩⟩]
      rfl (by decide),
    (claim_C7 (leafRecordOf sampleLeaf1)).2.2.1 rfl,
    (claim_C7 (leafRecordOf sampleLeaf1)).2.2.2.2.2.1 rfl⟩

/-- The object returned by the external parser (spec section 6): width,
height, a numeric color-mode identifier (stringified at line 100), and the
root children list.  The composite buffer is passed separately since
`composite()` is a separate (fallible) call. -/
structure PsdDocument where
  width : Nat
  height : Nat
  colorMode : Int
  children : List SrcNode

/-- The summary collected into `info` (lines 97-102) and stored via
`setPsdInfo`. -/
structure PsdFileInfo where
  width : Nat
  height : Nat
  colorMode : String
  layers : List (LayerRecord (List Guide) (List Slice))
  deriving DecidableEq

/-- `info` as built at lines 97-102 and 134. -/
def mkPsdInfo (doc : PsdDocument) : PsdFileInfo :=
  { width := doc.width
    height := doc.height
    colorMode := toString doc.colorMode
    layers := flattenLayers doc.children }

/-- A DOM `ImageData`: dimensions plus flat RGBA bytes. -/
structure ImageData where
  width : Nat
  height : Nat
  data : List Nat

/-- `new ImageData(buffer, width, height)` (lines 88-92): the constructor
throws unless the buffer length is exactly `4 * width * height`. -/
def mkImageData (buffer : List Nat) (w h : Nat) : Except String ImageData :=
  if buffer.length = 4 * w * h then .ok ⟨w, h, buffer⟩
  else .error "Invalid ImageData buffer length"

/-- An off-screen canvas: dimensions plus a byte-indexed pixel read-out
(flat RGBA index to byte value). -/
structure Canvas where
  width : Nat
  height : Nat
  getByte : Nat → Nat

/-- `document.createElement('canvas')` followed by setting `width` and
`height` (lines 82-85): a fresh canvas is fully transparent black. -/
def createCanvas (w h : Nat) : Canvas :=
  ⟨w, h, fun _ => 0⟩

/-- `ctx.putImageData(imageData, dx, dy)` (line 93): each canvas byte inside
the destination rectangle is replaced by the corresponding image byte,
without scaling or color conversion; bytes outside it are untouched. -/
def putImageData (c : Canvas) (d : ImageData) (dx dy : Nat) : Canvas :=
  { c with
    getByte := fun i =>
      let p := i / 4
      let k := i % 4
      let x := p % c.width
      let y := p / c.width
      if dx ≤ x ∧ x < dx + d.width ∧ dy ≤ y ∧ y < dy + d.height then
        d.data.getD (((y - dy) * d.width + (x - dx)) * 4 + k) 0
      else c.getByte i }

/-- A data URI produced by `canvas.toDataURL()`: a lossless (PNG) encoding
of the canvas, keeping its dimensions and bytes. -/
structure DataURL where
  width : Nat
  height : Nat
  bytes : List Nat
  deriving DecidableEq

/-- The canvas pixel bytes read out in flat RGBA order. -/
def canvasBytes (c : Canvas) : List Nat :=
  (List.range (4 * c.width * c.height)).map c.getByte

/-- `canvas.toDataURL()` (line 94). -/
def canvasToDataURL (c : Canvas) : DataURL :=
  ⟨c.width, c.height, canvasBytes c⟩

/-- The canvas as drawn by lines 82-93 for a successfully composited
document: sized to the document, buffer placed at origin (0,0). -/
def compositeCanvas (doc : PsdDocument) (buffer : List Nat) : Canvas :=
  putImageData (createCanvas doc.width doc.height) ⟨doc.width, doc.height, buffer⟩ 0 0

/-- The two React state slots (lines 70-71).  `imagePreview` is a string
initialised to `''`; only `''` (modelled `none`) and data URIs (modelled
`some`) are ever stored, and `''` is falsy at line 154. -/
structure UIState where
  psdInfo : Option PsdFileInfo
  imagePreview : Option DataURL
  deriving DecidableEq

/-- Initial state: `useState<PsdFileInfo | null>(null)`, `useState('')`. -/
def initialState : UIState := ⟨none, none⟩

/-- What one file-selection event presents to `analyzePsd`: either one of
the three awaited steps rejects/throws (`file.arrayBuffer()`, `Psd.parse`,
`psdFile.composite()`), or all succeed, yielding the parsed document and the
composited RGBA buffer. -/
inductive AnalyzeOutcome where
  | readError
  | parseError
  | compositeError
  | parsed (doc : PsdDocument) (buffer : List Nat)

/-- Whether the outcome is one of the three throwing steps. -/
def AnalyzeOutcome.fails : AnalyzeOutcome → Bool
  | .readError => true
  | .parseError => true
  | .compositeError => true
  | .parsed _ _ => false

/-- `analyzePsd` (lines 73-141) as a state transition.  The input is `none`
when no file was selected (early return, line 75), otherwise the outcome of
the awaited steps.  The result pairs the new state with the number of
`alert` calls: any exception in the `try` block is caught once at line 137
and surfaced as exactly one blocking alert (line 139), leaving both state
slots untouched; on success `setImagePreview` (line 94) and `setPsdInfo`
(line 135) fill both slots. -/
def analyzePsd (ev : Option AnalyzeOutcome) (st : UIState) : UIState × Nat :=
  match ev with
  | none => (st, 0)
  | some .readError => (st, 1)
  | some .parseError => (st, 1)
  | some .compositeError => (st, 1)
  | some (.parsed doc buffer) =>
    match mkImageData buffer doc.width doc.height with
    | .error _ => (st, 1)
    | .ok idata =>
      let canvas := putImageData (createCanvas doc.width doc.height) idata 0 0
      ({ psdInfo := some (mkPsdInfo doc), imagePreview := some (canvasToDataURL canvas) }, 0)

/-- The rendered composite `Image` element (lines 154-166). -/
structure ImageElement where
  src : DataURL
  width : Nat
  height : Nat
  deriving DecidableEq

/-- Lines 154-166: the image element renders only when `imagePreview` is
truthy; its width/height attributes are `psdInfo?.width || 0` and
`psdInfo?.height || 0`. -/
def renderedImage (st : UIState) : Option ImageElement :=
  match st.imagePreview with
  | none => none
  | some url =>
    some ⟨url, (st.psdInfo.map PsdFileInfo.width).getD 0,
      (st.psdInfo.map PsdFileInfo.height).getD 0⟩

/-- Lines 168-202: the info panel renders exactly when `psdInfo` is
non-null. -/
def renderedInfoPanel (st : UIState) : Option PsdFileInfo :=
  st.psdInfo

/-- A run that ends in an alert leaves the state slots untouched. -/
theorem analyzePsd_error_unchanged (ev : Option AnalyzeOutcome) (st : UIState)
    (h : (analyzePsd ev st).2 = 1) : (analyzePsd ev st).1 = st := by
  match ev with
  | none => simp [analyzePsd] at h
  | some .readError => rfl
  | some .parseError => rfl
  | some .compositeError => rfl
  | some (.parsed doc buffer) =>
    simp only [analyzePsd] at h ⊢
    cases hmk : mkImageData buffer doc.width doc.height with
    | error e => simp [hmk]
    | ok idata => simp [hmk] at h

/-- A document whose composited buffer has the contract length (spec
section 4.2: `length = width * height * 4`) is placed on the canvas
byte-for-byte at origin (0,0): reading the canvas back gives exactly the
buffer. -/
theorem canvasBytes_composite (doc : PsdDocument) (buffer : List Nat)
    (hlen : buffer.length = 4 * doc.width * doc.height) :
    canvasBytes (compositeCanvas doc buffer) = buffer := by
  apply List.ext_getElem
  · simp [canvasBytes, compositeCanvas, putImageData, createCanvas, hlen]
  · intro i h1 h2
    simp only [canvasBytes, List.getElem_map, List.getElem_range]
    have hi : i < 4 * doc.width * doc.height := by rw [← hlen]; exact h2
    have hw : 0 < doc.width := by
      rcases Nat.eq_zero_or_pos doc.width with h0 | h0
      · rw [h0] at hi; simp at hi
      · exact h0
    have hi' : i < doc.width * doc.height * 4 := by
      have e : 4 * doc.width * doc.height = doc.width * doc.height * 4 := by ring
      rw [← e]; exact hi
    have hp : i / 4 < doc.width * doc.height :=
      (Nat.div_lt_iff_lt_mul (by norm_num)).mpr hi'
    have hx : i / 4 % doc.width < doc.width := Nat.mod_lt _ hw
    have hy : i / 4 / doc.width < doc.height := by
      rw [Nat.div_lt_iff_lt_mul hw]
      rw [mul_comm doc.height doc.width]
      exact hp
    simp only [compositeCanvas, putImageData, createCanvas]
    rw [if_pos ⟨Nat.zero_le _, by simpa using hx, Nat.zero_le _, by simpa using hy⟩]
    have e1 : i / 4 / doc.width * doc.width + i / 4 % doc.width = i / 4 :=
      Nat.div_add_mod' (i / 4) doc.width
    have e2 : i / 4 * 4 + i % 4 = i := Nat.div_add_mod' i 4
    simp only [Nat.sub_zero]
    rw [e1, e2]
    exact List.getD_eq_getElem buffer 0 h2

/-- C9: for a successfully parsed and composited document the off-screen
canvas is sized to exactly the document's width by height, the RGBA buffer
is placed onto it at origin (0,0) with no scaling, cropping or color
correction (the canvas bytes read back equal the buffer), and the rendered
composite image element's dimensions equal the document's width and height
exactly. -/
theorem claim_C9 (doc : PsdDocument) (buffer : List Nat) (st : UIState)
    (hlen : buffer.length = 4 * doc.width * doc.height) :
    (compositeCanvas doc buffer).width = doc.width ∧
    (compositeCanvas doc buffer).height = doc.height ∧
    canvasBytes (compositeCanvas doc buffer) = buffer ∧
    analyzePsd (some (.parsed doc buffer)) st =
      ({ psdInfo := some (mkPsdInfo doc),
         imagePreview := some (canvasToDataURL (compositeCanvas doc buffer)) }, 0) ∧
    (canvasToDataURL (compositeCanvas doc buffer)).width = doc.width ∧
    (canvasToDataURL (compositeCanvas doc buffer)).height = doc.height ∧
    renderedImage (analyzePsd (some (.parsed doc buffer)) st).1 =
      some ⟨canvasToDataURL (compositeCanvas doc buffer), doc.width, doc.height⟩ := by
  have hmk : mkImageData buffer doc.width doc.height = .ok ⟨doc.width, doc.height, buffer⟩ := by
    simp [mkImageData, hlen]
  have hrun : analyzePsd (some (.parsed doc buffer)) st =
      ({ psdInfo := some (mkPsdInfo doc),
         imagePreview := some (canvasToDataURL (compositeCanvas doc buffer)) }, 0) := by
    simp [analyzePsd, hmk, compositeCanvas]
  refine ⟨rfl, rfl, canvasBytes_composite doc buffer hlen, hrun, rfl, rfl, ?_⟩
  rw [hrun]
  simp [renderedImage, mkPsdInfo]

/-- Concrete 1 by 1 document. -/
def doc1 : PsdDocument := ⟨1, 1, 3, []⟩

/-- Concrete 100 by 50 document. -/
def doc2 : PsdDocument := ⟨100, 50, 3, []⟩

/-- Concrete 4096 by 4096 document. -/
def doc3 : PsdDocument := ⟨4096, 4096, 3, []⟩

/-- Witness for C9 at the three boundary sizes from the spec. -/
theorem claim_C9_witness :
    ((List.replicate (4 * 1 * 1) 0).length = 4 * doc1.width * doc1.height ∧
      renderedImage
          (analyzePsd (some (.parsed doc1 (List.replicate (4 * 1 * 1) 0))) initialState).1 =
        some ⟨canvasToDataURL (compositeCanvas doc1 (List.replicate (4 * 1 * 1) 0)), 1, 1⟩) ∧
    ((List.replicate (4 * 100 * 50) 0).length = 4 * doc2.width * doc2.height ∧
      renderedImage
          (analyzePsd (some (.parsed doc2 (List.replicate (4 * 100 * 50) 0))) initialState).1 =
        some ⟨canvasToDataURL (compositeCanvas doc2 (List.replicate (4 * 100 * 50) 0)),
          100, 50⟩) ∧
    ((List.replicate (4 * 4096 * 4096) 0).length = 4 * doc3.width * doc3.height ∧
      renderedImage
          (analyzePsd (some (.parsed doc3 (List.replicate (4 * 4096 * 4096) 0))) initialState).1 =
        some ⟨canvasToDataURL (compositeCanvas doc3 (List.replicate (4 * 4096 * 4096) 0)),
          4096, 4096⟩) := by
  refine ⟨⟨by rw [List.length_replicate]; rfl, ?_⟩, ⟨by rw [List.length_replicate]; rfl, ?_⟩,
    ⟨by rw [List.length_replicate]; rfl, ?_⟩⟩
  · exact (claim_C9 doc1 (List.replicate (4 * 1 * 1) 0) initialState
      (by rw [List.length_replicate]; rfl)).2.2.2.2.2.2
  · exact (claim_C9 doc2 (List.replicate (4 * 100 * 50) 0) initialState
      (by rw [List.length_replicate]; rfl)).2.2.2.2.2.2
  · exact (claim_C9 doc3 (List.replicate (4 * 4096 * 4096) 0) initialState
      (by rw [List.length_replicate]; rfl)).2.2.2.2.2.2

/-- A previous successful analysis: document 2 by 1 with one leaf layer. -/
def prevDoc : PsdDocument := ⟨2, 1, 3, [sampleLeaf1]⟩

/-- The composited buffer of the previous document. -/
def prevBuffer : List Nat := List.replicate 8 7

/-- The UI state after the previous successful analysis: both slots hold the
previous file's preview and summary. -/
def prevState : UIState := (analyzePsd (some (.parsed prevDoc prevBuffer)) initialState).1

/-- C2 counterexample: a file-selection event that throws during parsing,
arriving after an earlier successful analysis, leaves the previous image
element and the previous info panel rendered — the catch block (lines
137-140) alerts but never clears `imagePreview` or `psdInfo`, so the claim
that a failing run results in no image element and no info panel is false. -/
theorem claim_C2_cex :
    (analyzePsd (some .parseError) prevState).2 = 1 ∧
    (renderedImage (analyzePsd (some .parseError) prevState).1).isSome = true ∧
    (renderedInfoPanel (analyzePsd (some .parseError) prevState).1).isSome = true := by
  decide

/-- C2 (amended): when the pipeline throws during byte read, parse, or
composite, the error is caught once and exactly one blocking alert is shown,
and both display slots are left unchanged; in particular, starting from the
initial state (no earlier successful analysis) the resulting UI renders no
image element and no info panel. -/
theorem claim_C2 (ev : AnalyzeOutcome) (st : UIState) (h : ev.fails = true) :
    analyzePsd (some ev) st = (st, 1) ∧
    renderedImage (analyzePsd (some ev) initialState).1 = none ∧
    renderedInfoPanel (analyzePsd (some ev) initialState).1 = none := by
  cases ev with
  | readError => exact ⟨rfl, rfl, rfl⟩
  | parseError => exact ⟨rfl, rfl, rfl⟩
  | compositeError => exact ⟨rfl, rfl, rfl⟩
  | parsed doc buffer => simp [AnalyzeOutcome.fails] at h

/-- Witness for C2 at a parse error over the previous state. -/
theorem claim_C2_witness :
    AnalyzeOutcome.fails .parseError = true ∧
    (analyzePsd (some .parseError) prevState = (prevState, 1) ∧
     renderedImage (analyzePsd (some .parseError) initialState).1 = none ∧
     renderedInfoPanel (analyzePsd (some .parseError) initialState).1 = none) :=
  ⟨rfl, claim_C2 .parseError prevState rfl⟩

/-- C8: a run that ends in an error (the alert fired) leaves the two display
slots either both unchanged or both cleared — never a half-updated state;
the code's policy is both unchanged, because every throwing step happens
before `setImagePreview` (line 94), the first state write. -/
theorem claim_C8 (ev : Option AnalyzeOutcome) (st : UIState)
    (h : (analyzePsd ev st).2 = 1) :
    ((analyzePsd ev st).1.psdInfo = st.psdInfo ∧
     (analyzePsd ev st).1.imagePreview = st.imagePreview) ∨
    ((analyzePsd ev st).1.psdInfo = none ∧
     (analyzePsd ev st).1.imagePreview = none) := by
  left
  rw [analyzePsd_error_unchanged ev st h]
  exact ⟨rfl, rfl⟩

/-- Witness for C8 at a read error over the previous state. -/
theorem claim_C8_witness :
    (analyzePsd (some .readError) prevState).2 = 1 ∧
    (((analyzePsd (some .readError) prevState).1.psdInfo = prevState.psdInfo ∧
      (analyzePsd (some .readError) prevState).1.imagePreview = prevState.imagePreview) ∨
     ((analyzePsd (some .readError) prevState).1.psdInfo = none ∧
      (analyzePsd (some .readError) prevState).1.imagePreview = none)) :=
  ⟨rfl, claim_C8 (some .readError) prevState rfl⟩

/-- The reference view of the tree: at runtime `guides` and `slices` hold
JavaScript array references, and the record literals at lines 119-120 and
127-128 copy the reference (`guides: node.guides`), not the array.  Here a
reference is an address (`Nat`) into an explicit heap. -/
abbrev RefNode := PsdLayerNode Nat Nat

/-- The heap holding the actual guide and slice arrays behind references. -/
structure Heap where
  guideArrays : List (List Guide)
  sliceArrays : List (List Slice)
  deriving DecidableEq

/-- Reading the guides array behind a (possibly absent) reference. -/
def derefGuides (hp : Heap) : Option Nat → Option (List Guide)
  | none => none
  | some r => hp.guideArrays[r]?

/-- In-place mutation of the guides array behind a reference (for example
`record.guides.push(...)`): the heap cell changes, the reference does not. -/
def writeGuides (hp : Heap) : Option Nat → List Guide → Heap
  | none, _ => hp
  | some i, v => { hp with guideArrays := hp.guideArrays.set i v }

/-- Concrete guide used by the aliasing counterexample. -/
def cexGuideA : Guide := ⟨10, "horizontal"⟩

/-- Second concrete guide used by the aliasing counterexample. -/
def cexGuideB : Guide := ⟨20, "vertical"⟩

/-- A heap with one guides array holding one guide. -/
def cexHeap : Heap := ⟨[[cexGuideA]], []⟩

/-- A leaf node whose `guides` field references heap cell 0. -/
def cexNode : RefNode :=
  .mk "Layer" "leaf" none none none none none none none none none none none (some 0) none

/-- The display record the flattener emits for `cexNode`. -/
def cexRecord : LayerRecord Nat Nat := leafRecordOf cexNode

/-- The heap after mutating the emitted record's guides array in place
(appending `cexGuideB`), through the reference stored in the record. -/
def cexHeapMutated : Heap := writeGuides cexHeap cexRecord.guides [cexGuideA, cexGuideB]

/-- C3 counterexample: the flattener emits for `cexNode` a record whose
`guides` field is the very same reference as the source node's; mutating the
record's guides array in place (through the record's reference)
changes what the source node's `guides` dereferences to — so a display
record is not an independent fully-copied projection, and mutating it can
change the source tree. -/
theorem claim_C3_cex :
    flattenLayers [cexNode] = [cexRecord] ∧
    cexRecord.guides = cexNode.guides ∧
    derefGuides cexHeapMutated cexNode.guides ≠ derefGuides cexHeap cexNode.guides := by
  decide

/-- C3 (amended): each display record is a fresh object whose scalar fields
are value copies, but its `guides` and `slices` fields are the same
references as the source node's (the literals copy the reference, not the
array); consequently an in-place mutation of the array behind the record's
guides reference is visible through the source node's reference. -/
theorem claim_C3 (layers : List (LayerRecord Nat Nat)) (n : RefNode) (hp : Heap)
    (i : Nat) (v : List Guide) (hg : n.guides = some i)
    (hi : i < hp.guideArrays.length) :
    (n.type = "Layer" →
      collectLayerInfo layers n = layers ++ [leafRecordOf n] ∧
      (leafRecordOf n).guides = n.guides ∧ (leafRecordOf n).slices = n.slices) ∧
    (n.type = "Group" →
      collectLayerInfo layers n =
        collectLayerInfoList (layers ++ [groupRecordOf n]) (n.children.getD []) ∧
      (groupRecordOf n).guides = n.guides ∧ (groupRecordOf n).slices = n.slices) ∧
    derefGuides (writeGuides hp n.guides v) n.guides = some v := by
  refine ⟨fun h => ⟨collectLayerInfo_layer layers n h, rfl, rfl⟩,
    fun h => ⟨collectLayerInfo_group layers n h, rfl, rfl⟩, ?_⟩
  rw [hg]
  simp [derefGuides, writeGuides, List.getElem?_set, hi]

/-- Witness for C3 at the concrete node, heap and mutation. -/
theorem claim_C3_witness :
    (cexNode.guides = some 0 ∧ 0 < cexHeap.guideArrays.length) ∧
    ((cexNode.type = "Layer" →
       collectLayerInfo [] cexNode = [] ++ [leafRecordOf cexNode] ∧
       (leafRecordOf cexNode).guides = cexNode.guides ∧
       (leafRecordOf cexNode).slices = cexNode.slices) ∧
     (cexNode.type = "Group" →
       collectLayerInfo [] cexNode =
         collectLayerInfoList ([] ++ [groupRecordOf cexNode]) (cexNode.children.getD []) ∧
       (groupRecordOf cexNode).guides = cexNode.guides ∧
       (groupRecordOf cexNode).slices = cexNode.slices) ∧
     derefGuides (writeGuides cexHeap cexNode.guides [cexGuideA, cexGuideB])
       cexNode.guides = some [cexGuideA, cexGuideB]) :=
  ⟨⟨rfl, by decide⟩, claim_C3 [] cexNode cexHeap 0 [cexGuideA, cexGuideB] rfl (by decide)⟩

end PsdAnalytics
